import Mathlib

/-!
Verification development for the go-ffmpeg package: a thin orchestration
layer around the ffmpeg/ffprobe binaries.  Go strings are embedded as
`List Char`; the operating-system effects of one call (process start,
the race between context cancellation and process completion, the kill
attempt, captured output, and JSON unmarshalling) are embedded as an
explicit environment record supplied to each function, so every function
is a pure Lean function of its inputs and that environment.  The two
process-wide globals (binary path, option slot) are passed explicitly.
-/

namespace FFMpeg

/-- Distinguished Go error values of the package and its call sites.
`os n` stands for an arbitrary operating-system-level error value
(a start failure other than `exec.ErrNotFound`, a wait error such as a
non-zero exit status, or a kill failure), identified by an opaque code;
such a value is never one of the package sentinels.  `json n` stands for
an arbitrary error returned by `json.Unmarshal`.  `runWrap`, `stderrMsg`
and `unmarshalWrap` mirror the `fmt.Errorf` wrappings in
`GetProbeDataOptions`. -/
inductive GoErr where
  | ffprobeNotFound
  | ffmpegNotFound
  | timeout
  | optionNotSet
  | os (n : Nat)
  | json (n : Nat)
  | runWrap (stderr : List Char) (cause : GoErr)
  | stderrMsg (stderr : List Char)
  | unmarshalWrap (cause : GoErr)
deriving DecidableEq

/-- Outcome of `cmd.Start()`: success, the `exec.ErrNotFound` sentinel,
or some other start error. -/
inductive StartOutcome where
  | ok
  | notFound
  | failed (n : Nat)
deriving DecidableEq

/-- Outcome of the `select` race between `ctx.Done()` and the waiter
goroutine: either the context fired first (with the result of the
subsequent `cmd.Process.Kill()` attempt, `none` meaning the kill
succeeded), or the process completed first (with the result of
`cmd.Wait()`, `none` meaning a clean zero-status exit). -/
inductive RaceOutcome where
  | ctxDone (killErr : Option Nat)
  | completed (waitErr : Option Nat)
deriving DecidableEq

/-- Go `strings.TrimSuffix`: drop `suffix` from the end of `s` when it is
a suffix, otherwise return `s` unchanged. -/
def trimSuffix (s suffix : List Char) : List Char :=
  if suffix <:+ s then s.take (s.length - suffix.length) else s

/-- Helper for `goExt`: scans the reversed path from the end of the
original string; `acc` holds the characters already scanned, in original
order. -/
def goExtAux (acc : List Char) : List Char → List Char
  | [] => []
  | c :: rest =>
      if c = '/' then []
      else if c = '.' then c :: acc
      else goExtAux (c :: acc) rest

/-- Go `path/filepath.Ext` (Unix separator): the suffix beginning at the
final dot in the final path element; empty if there is none. -/
def goExt (path : List Char) : List Char :=
  goExtAux [] path.reverse

/-- Go `path/filepath.Base` (Unix separator): the last element of the
path after trailing separators are removed; `"."` for the empty path,
`"/"` for a path made of separators only. -/
def goBase (path : List Char) : List Char :=
  if path = [] then ['.']
  else
    let p1 := (path.reverse.dropWhile (fun c => c = '/')).reverse
    let p2 := (p1.reverse.takeWhile (fun c => c ≠ '/')).reverse
    if p2 = [] then ['/'] else p2

/-- `resolveOutputFrameFileFormat`: base name of the input with its
extension stripped, suffixed with `-%03d.jpeg`. -/
def resolveOutputFrameFileFormat (filePath : List Char) : List Char :=
  let baseFileName := goBase filePath
  trimSuffix baseFileName (goExt baseFileName) ++ ("-%03d.jpeg").toList

/-- `resolveOutputMP4FileFormat`: base name of the input with its
extension stripped, suffixed with `.mp4`. -/
def resolveOutputMP4FileFormat (filePath : List Char) : List Char :=
  let baseFileName := goBase filePath
  trimSuffix baseFileName (goExt baseFileName) ++ (".mp4").toList

/-- Modelled from the spec: container-level metadata of a probe result
(filename, container format name, stream count, start time, duration,
size, bit rate, probe score, tag mapping); its Go definition is not under
src/. -/
structure ProbeFormat where
  filename : List Char
  formatName : List Char
  nbStreams : Nat
  startTime : List Char
  duration : List Char
  size : List Char
  bitRate : List Char
  probeScore : Nat
  tags : List (List Char × List Char)
deriving DecidableEq

/-- Modelled from the spec: one per-stream descriptor of a probe result
(index, codec names, profile, stream type, dimensions, frame rate, bit
rate, duration, tag mapping); its Go definition is not under src/. -/
structure ProbeStream where
  index : Nat
  codecName : List Char
  codecLongName : List Char
  profile : List Char
  codecType : List Char
  width : Nat
  height : Nat
  frameRate : List Char
  bitRate : List Char
  duration : List Char
  tags : List (List Char × List Char)
deriving DecidableEq

/-- Modelled from the spec: the ProbeData result of probing a media file,
holding a Format and an ordered sequence of Stream descriptors; its Go
definition is not under src/.  Only its identity matters to the claims
below (a non-nil pointer in Go is `some` here). -/
structure ProbeData where
  format : ProbeFormat
  streams : List ProbeStream
deriving DecidableEq

/-- Environment of one start/race/kill call (`ExtractingImagesContext`,
`ConvertToMP4Context`, `GetProbeDataContext`): the outcome of
`cmd.Start()`, the outcome of the `select` race, the captured standard
output, and the effect of `json.Unmarshal` on those bytes (the ProbeData
value left in the freshly allocated struct together with the returned
error, `none` meaning success).  Only the probe call reads `unmarshal`. -/
structure ProcEnv where
  start : StartOutcome
  race : RaceOutcome
  stdout : List Char
  unmarshal : ProbeData × Option Nat
deriving DecidableEq

/-- Environment of one `cmd.Run()` call (`GetProbeDataOptions`): the
result of `Run` (`none` meaning the process started and exited with
status zero), the captured standard output and standard error, and the
effect of `json.Unmarshal` on the captured output. -/
structure RunEnv where
  runErr : Option Nat
  stdout : List Char
  stdErr : List Char
  unmarshal : ProbeData × Option Nat
deriving DecidableEq

/-- One attempted subprocess spawn: the binary invoked and its argument
list.  Returned as a trace alongside each call's result. -/
structure SpawnRecord where
  bin : List Char
  args : List (List Char)
deriving DecidableEq

/-- `ExtractingImagesOption` of part_001: frame rate, optional output
width/height, and the source file path. -/
structure ExtractingImagesOption where
  FrameRate : List Char
  OutputWidth : Option Nat
  OutputHeight : Option Nat
  FilePath : List Char
deriving DecidableEq

/-- `MP4ConvertOption`: overwrite flag and source file path. -/
structure MP4ConvertOption where
  Overwrite : Bool
  filePath : List Char
deriving DecidableEq

/-- `DefaultExtractingImagesOption`: the option value installed in the
global slot — frame rate `"1"`, no output dimensions, the given path. -/
def DefaultExtractingImagesOption (filePath : List Char) : ExtractingImagesOption :=
  { FrameRate := ("1").toList
    OutputWidth := none
    OutputHeight := none
    FilePath := filePath }

/-- `DefaultMP4ConvertOption`: the option value installed in the global
slot — overwrite enabled, the given path. -/
def DefaultMP4ConvertOption (filePath : List Char) : MP4ConvertOption :=
  { Overwrite := true
    filePath := filePath }

/-- `fmt.Sprintf("%dx%d", w, h)`. -/
def sizeArg (w h : Nat) : List Char :=
  (Nat.repr w).toList ++ ('x' :: []) ++ (Nat.repr h).toList

/-- `ExtractingImagesContext` (part_001 / ffmpeg.go): fails with
`optionNotSet` when the global option slot is nil; otherwise builds the
ffmpeg argument list (with `-s WxH` exactly when both dimensions are
set), spawns the process and runs the start/race/kill pattern.  `bin` is
the current value of the `ffmpegBinPath` global; `opt` the global option
slot.  Returns the Go error result and the spawn trace. -/
def ExtractingImagesContext (bin : List Char) (opt : Option ExtractingImagesOption)
    (env : ProcEnv) : Option GoErr × List SpawnRecord :=
  match opt with
  | none => (some GoErr.optionNotSet, [])
  | some o =>
    let outputFileFormat := resolveOutputFrameFileFormat o.FilePath
    let args : List (List Char) :=
      match o.OutputWidth, o.OutputHeight with
      | some w, some h =>
          [("-i").toList, o.FilePath,
           ("-r").toList, o.FrameRate,
           ("-s").toList, sizeArg w h,
           ("-f").toList, ("image2").toList,
           outputFileFormat]
      | _, _ =>
          [("-i").toList, o.FilePath,
           ("-r").toList, o.FrameRate,
           ("-f").toList, ("image2").toList,
           outputFileFormat]
    let spawn := [SpawnRecord.mk bin args]
    match env.start with
    | StartOutcome.notFound => (some GoErr.ffmpegNotFound, spawn)
    | StartOutcome.failed n => (some (GoErr.os n), spawn)
    | StartOutcome.ok =>
      match env.race with
      | RaceOutcome.ctxDone none => (some GoErr.timeout, spawn)
      | RaceOutcome.ctxDone (some n) => (some (GoErr.os n), spawn)
      | RaceOutcome.completed (some n) => (some (GoErr.os n), spawn)
      | RaceOutcome.completed none => (none, spawn)

/-- `ConvertToMP4Context` (part_001): fails with `optionNotSet` when the
global option slot is nil; otherwise builds `-i <input> <basename>.mp4`,
appends `-y` when the overwrite flag is set, spawns the process and runs
the start/race/kill pattern. -/
def ConvertToMP4Context (bin : List Char) (opt : Option MP4ConvertOption)
    (env : ProcEnv) : Option GoErr × List SpawnRecord :=
  match opt with
  | none => (some GoErr.optionNotSet, [])
  | some o =>
    let outputFileFormat := resolveOutputMP4FileFormat o.filePath
    let args0 : List (List Char) := [("-i").toList, o.filePath, outputFileFormat]
    let args := if o.Overwrite then args0 ++ [("-y").toList] else args0
    let spawn := [SpawnRecord.mk bin args]
    match env.start with
    | StartOutcome.notFound => (some GoErr.ffmpegNotFound, spawn)
    | StartOutcome.failed n => (some (GoErr.os n), spawn)
    | StartOutcome.ok =>
      match env.race with
      | RaceOutcome.ctxDone none => (some GoErr.timeout, spawn)
      | RaceOutcome.ctxDone (some n) => (some (GoErr.os n), spawn)
      | RaceOutcome.completed (some n) => (some (GoErr.os n), spawn)
      | RaceOutcome.completed none => (none, spawn)

/-- `GetProbeDataContext` (part_000): fixed quiet/JSON arguments plus the
file path, the start/race/kill pattern, then `json.Unmarshal` of the
captured bytes into a fresh ProbeData, returned (non-nil) even when the
unmarshal fails.  `bin` is the `ffprobeBinPath` global. -/
def GetProbeDataContext (bin : List Char) (env : ProcEnv) (filePath : List Char) :
    (Option ProbeData × Option GoErr) × List SpawnRecord :=
  let args : List (List Char) :=
    [("-v").toList, ("quiet").toList,
     ("-print_format").toList, ("json").toList,
     ("-show_format").toList,
     ("-show_streams").toList,
     filePath]
  let spawn := [SpawnRecord.mk bin args]
  match env.start with
  | StartOutcome.notFound => ((none, some GoErr.ffprobeNotFound), spawn)
  | StartOutcome.failed n => ((none, some (GoErr.os n)), spawn)
  | StartOutcome.ok =>
    match env.race with
    | RaceOutcome.ctxDone none => ((none, some GoErr.timeout), spawn)
    | RaceOutcome.ctxDone (some n) => ((none, some (GoErr.os n)), spawn)
    | RaceOutcome.completed (some n) => ((none, some (GoErr.os n)), spawn)
    | RaceOutcome.completed none =>
      match env.unmarshal with
      | (d, some n) => ((some d, some (GoErr.json n)), spawn)
      | (d, none) => ((some d, none), spawn)

/-- `GetProbeDataOptions` (part_000): fatal-loglevel/JSON base arguments,
caller-supplied extra arguments, then the file; runs via
`exec.CommandContext` + `cmd.Run`, capturing both streams.  A run error
is wrapped with the captured stderr; a zero-status run with non-empty
stderr fails with the stderr message; an unmarshal failure is wrapped and
still returns the (non-nil) ProbeData. -/
def GetProbeDataOptions (bin : List Char) (env : RunEnv) (file : List Char)
    (extraFFProbeOptions : List (List Char)) :
    (Option ProbeData × Option GoErr) × List SpawnRecord :=
  let args : List (List Char) :=
    ([("-loglevel").toList, ("fatal").toList,
      ("-print_format").toList, ("json").toList,
      ("-show_format").toList,
      ("-show_streams").toList] ++ extraFFProbeOptions) ++ [file]
  let spawn := [SpawnRecord.mk bin args]
  match env.runErr with
  | some n => ((none, some (GoErr.runWrap env.stdErr (GoErr.os n))), spawn)
  | none =>
    if env.stdErr ≠ [] then
      ((none, some (GoErr.stderrMsg env.stdErr)), spawn)
    else
      match env.unmarshal with
      | (d, some n) => ((some d, some (GoErr.unmarshalWrap (GoErr.json n))), spawn)
      | (d, none) => ((some d, none), spawn)

/-! ### Supporting lemmas -/

/-- The scanner underlying `goExt` only ever returns a suffix of the
scanned text: its result is a suffix of `r.reverse ++ acc`. -/
theorem goExtAux_suffix (r : List Char) : ∀ acc : List Char, goExtAux acc r <:+ r.reverse ++ acc := by
  induction r with
  | nil =>
    intro acc
    rw [goExtAux]
    exact List.nil_suffix
  | cons c rest ih =>
    intro acc
    have heq : rest.reverse ++ (c :: acc) = (c :: rest).reverse ++ acc := by
      simp [List.append_assoc]
    by_cases h1 : c = '/'
    · rw [goExtAux, if_pos h1]
      exact List.nil_suffix
    · by_cases h2 : c = '.'
      · rw [goExtAux, if_neg h1, if_pos h2]
        exact heq ▸ List.suffix_append rest.reverse (c :: acc)
      · rw [goExtAux, if_neg h1, if_neg h2]
        exact heq ▸ ih (c :: acc)

/-- `goExt` always returns a suffix of its argument. -/
theorem goExt_suffix (s : List Char) : goExt s <:+ s := by
  have h := goExtAux_suffix s.reverse []
  simpa [goExt] using h

/-- `trimSuffix` really strips a genuine suffix: if `b = stem ++ e` then
`trimSuffix b e = stem`. -/
theorem trimSuffix_of_eq (b e stem : List Char) (h : stem ++ e = b) :
    trimSuffix b e = stem := by
  subst h
  unfold trimSuffix
  rw [if_pos (List.suffix_append stem e)]
  simp [List.length_append, List.take_left]

/-- The extraction invocation shape as the spec words it:
`-i <input> -r <frame-rate> [-s <W>x<H>] -f image2 <basename>-%03d.jpeg`,
the optional `-s` segment present exactly when both output dimensions
are set. -/
def extractionInvocationShape (o : ExtractingImagesOption) : List (List Char) :=
  [("-i").toList, o.FilePath]
    ++ [("-r").toList, o.FrameRate]
    ++ (match o.OutputWidth, o.OutputHeight with
        | some w, some h => [("-s").toList, sizeArg w h]
        | _, _ => [])
    ++ [("-f").toList, ("image2").toList, resolveOutputFrameFileFormat o.FilePath]

/-- The conversion invocation shape as the spec words it:
`-i <input> <basename>.mp4 [-y]`, the force-overwrite flag appended
exactly when the overwrite flag is set. -/
def conversionInvocationShape (o : MP4ConvertOption) : List (List Char) :=
  [("-i").toList, o.filePath, resolveOutputMP4FileFormat o.filePath]
    ++ (if o.Overwrite then [("-y").toList] else [])

/-! ### Claim theorems -/

/-- Claim C3: with the corresponding option global unset (nil), both
`ExtractingImagesContext` and `ConvertToMP4Context` fail immediately with
the NotConfigured error and the spawn trace is empty — no argument list
is built and no process is started. -/
theorem not_configured_no_spawn (bin : List Char) (env : ProcEnv) :
    ExtractingImagesContext bin none env = (some GoErr.optionNotSet, [])
    ∧ ConvertToMP4Context bin none env = (some GoErr.optionNotSet, []) :=
  ⟨rfl, rfl⟩

/-- Claim C4: for every path `p` whose base name has a (non-empty)
extension `e`, the base name splits as `stem ++ e`, the derived
frame-output pattern is `stem ++ "-%03d.jpeg"`, and the derived
conversion-output path is `stem ++ ".mp4"`. -/
theorem output_naming_strips_extension (p e : List Char)
    (he : e = goExt (goBase p)) (hne : e ≠ []) :
    ∃ stem, goBase p = stem ++ e
      ∧ resolveOutputFrameFileFormat p = stem ++ ("-%03d.jpeg").toList
      ∧ resolveOutputMP4FileFormat p = stem ++ (".mp4").toList := by
  subst he
  obtain ⟨stem, hstem⟩ := goExt_suffix (goBase p)
  have htrim := trimSuffix_of_eq (goBase p) (goExt (goBase p)) stem hstem
  refine ⟨stem, hstem.symm, ?_, ?_⟩
  · show trimSuffix (goBase p) (goExt (goBase p)) ++ ("-%03d.jpeg").toList
        = stem ++ ("-%03d.jpeg").toList
    rw [htrim]
  · show trimSuffix (goBase p) (goExt (goBase p)) ++ (".mp4").toList
        = stem ++ (".mp4").toList
    rw [htrim]

/-- Witness for C4 at `p = "intro.mp4"`, `e = ".mp4"`. -/
theorem output_naming_strips_extension_witness :
    ∃ stem, goBase (("intro.mp4").toList) = stem ++ ((".mp4").toList)
      ∧ resolveOutputFrameFileFormat (("intro.mp4").toList) = stem ++ (("-%03d.jpeg").toList)
      ∧ resolveOutputMP4FileFormat (("intro.mp4").toList) = stem ++ ((".mp4").toList) :=
  output_naming_strips_extension (("intro.mp4").toList) ((".mp4").toList) (by decide) (by decide)

/-- Claim C6: the argument list built by `ConvertToMP4Context` for a
configured option is exactly `-i <input> <basename>.mp4` with `-y`
appended if and only if the overwrite flag is set. -/
theorem conversion_args_exact (bin : List Char) (o : MP4ConvertOption) (env : ProcEnv) :
    (ConvertToMP4Context bin (some o) env).2
      = [SpawnRecord.mk bin (conversionInvocationShape o)] := by
  rcases o with ⟨ov, fp⟩
  rcases env with ⟨s, r, out, um⟩
  rcases s with _ | _ | j <;>
    rcases r with (_ | n) | (_ | m) <;>
    cases ov <;>
    simp [ConvertToMP4Context, conversionInvocationShape]

/-- Claim C1: once the process has started, if the cancellation signal
wins the race (kill attempt outcome `k`), each of the three operations
returns the Timeout error exactly when the kill succeeded (`k = none`),
and returns the kill error itself when the kill failed. -/
theorem timeout_kill_classification (bin f : List Char) (o : ExtractingImagesOption)
    (c : MP4ConvertOption) (env : ProcEnv) (k : Option Nat)
    (hs : env.start = StartOutcome.ok) (hr : env.race = RaceOutcome.ctxDone k) :
    ((k = none →
        (ExtractingImagesContext bin (some o) env).1 = some GoErr.timeout
        ∧ (ConvertToMP4Context bin (some c) env).1 = some GoErr.timeout
        ∧ (GetProbeDataContext bin env f).1.2 = some GoErr.timeout)
      ∧ (∀ n, k = some n →
        (ExtractingImagesContext bin (some o) env).1 = some (GoErr.os n)
        ∧ (ConvertToMP4Context bin (some c) env).1 = some (GoErr.os n)
        ∧ (GetProbeDataContext bin env f).1.2 = some (GoErr.os n)))
    ∧ ((ExtractingImagesContext bin (some o) env).1 = some GoErr.timeout ↔ k = none)
    ∧ ((ConvertToMP4Context bin (some c) env).1 = some GoErr.timeout ↔ k = none)
    ∧ ((GetProbeDataContext bin env f).1.2 = some GoErr.timeout ↔ k = none) := by
  rcases env with ⟨s, r, out, um⟩
  simp only at hs hr
  subst hs
  subst hr
  rcases o with ⟨fr, ow, oh, fp⟩
  cases k <;>
    rcases ow with _ | w <;>
    rcases oh with _ | h <;>
    simp [ExtractingImagesContext, ConvertToMP4Context, GetProbeDataContext]

/-- Claim C2: a start failure with the not-found sentinel yields the
dedicated BinaryNotFound error of each operation (`ErrFFMPEGNotFound`
for extraction/conversion, `ErrFFProbeNotFound` for probing, with no
probe data produced); a start failure with any other cause is returned
as that underlying error. -/
theorem start_failure_classification (bin f : List Char) (o : ExtractingImagesOption)
    (c : MP4ConvertOption) (env : ProcEnv) :
    (env.start = StartOutcome.notFound →
        (ExtractingImagesContext bin (some o) env).1 = some GoErr.ffmpegNotFound
        ∧ (ConvertToMP4Context bin (some c) env).1 = some GoErr.ffmpegNotFound
        ∧ (GetProbeDataContext bin env f).1 = (none, some GoErr.ffprobeNotFound))
    ∧ (∀ n, env.start = StartOutcome.failed n →
        (ExtractingImagesContext bin (some o) env).1 = some (GoErr.os n)
        ∧ (ConvertToMP4Context bin (some c) env).1 = some (GoErr.os n)
        ∧ (GetProbeDataContext bin env f).1 = (none, some (GoErr.os n))) := by
  rcases env with ⟨s, r, out, um⟩
  rcases o with ⟨fr, ow, oh, fp⟩
  constructor
  · intro hs
    simp only at hs
    subst hs
    rcases ow with _ | w <;>
      rcases oh with _ | h <;>
      simp [ExtractingImagesContext, ConvertToMP4Context, GetProbeDataContext]
  · intro n hs
    simp only at hs
    subst hs
    rcases ow with _ | w <;>
      rcases oh with _ | h <;>
      simp [ExtractingImagesContext, ConvertToMP4Context, GetProbeDataContext]

/-- Claim C5: the argument list built by `ExtractingImagesContext` for a
configured option is exactly
`-i <input> -r <frame-rate> [-s <W>x<H>] -f image2 <basename>-%03d.jpeg`,
the `-s` segment present exactly when both dimensions are set; in
particular, with the height unset the resize argument is omitted. -/
theorem extraction_args_exact (bin : List Char) (o : ExtractingImagesOption) (env : ProcEnv) :
    (ExtractingImagesContext bin (some o) env).2
      = [SpawnRecord.mk bin (extractionInvocationShape o)]
    ∧ (o.OutputHeight = none →
        (ExtractingImagesContext bin (some o) env).2
          = [SpawnRecord.mk bin
              [("-i").toList, o.FilePath, ("-r").toList, o.FrameRate,
               ("-f").toList, ("image2").toList,
               resolveOutputFrameFileFormat o.FilePath]]) := by
  rcases o with ⟨fr, ow, oh, fp⟩
  rcases env with ⟨s, r, out, um⟩
  rcases s with _ | _ | j <;>
    rcases r with (_ | n) | (_ | m) <;>
    rcases ow with _ | w <;>
    rcases oh with _ | h <;>
    simp [ExtractingImagesContext, extractionInvocationShape]

/-- Claim C7: when the probe subprocess exits cleanly but the captured
output fails to unmarshal, both probe variants fail with a decode error
while still returning the non-nil (freshly allocated, likely empty)
ProbeData value. -/
theorem probe_decode_failure_returns_data (bin f : List Char) (env : ProcEnv)
    (renv : RunEnv) (extra : List (List Char)) (d d2 : ProbeData) (n m : Nat)
    (hs : env.start = StartOutcome.ok) (hr : env.race = RaceOutcome.completed none)
    (hu : env.unmarshal = (d, some n))
    (hrun : renv.runErr = none) (hse : renv.stdErr = [])
    (hru : renv.unmarshal = (d2, some m)) :
    (GetProbeDataContext bin env f).1 = (some d, some (GoErr.json n))
    ∧ (GetProbeDataOptions bin renv f extra).1
        = (some d2, some (GoErr.unmarshalWrap (GoErr.json m))) := by
  rcases env with ⟨s, r, out, um⟩
  rcases renv with ⟨re, rout, rse, rum⟩
  simp only at hs hr hu hrun hse hru
  subst hs
  subst hr
  subst hu
  subst hrun
  subst hse
  subst hru
  simp [GetProbeDataContext, GetProbeDataOptions]

/-- Claim C8: when `GetProbeDataOptions`'s subprocess runs to a
zero-status completion but wrote non-empty text to standard error, the
call fails with the ExecutionFailure-style stderr error and returns no
ProbeData. -/
theorem probe_options_stderr_failure (bin f : List Char) (extra : List (List Char))
    (renv : RunEnv) (hrun : renv.runErr = none) (hne : renv.stdErr ≠ []) :
    (GetProbeDataOptions bin renv f extra).1
      = (none, some (GoErr.stderrMsg renv.stdErr)) := by
  rcases renv with ⟨re, rout, rse, rum⟩
  simp only at hrun hne
  subst hrun
  simp [GetProbeDataOptions, hne]

/-- Claim C9: the default extraction option carries frame rate `"1"` and
no output dimensions, so an extraction run with it builds the argument
list without any resize segment. -/
theorem default_extraction_option_shape (bin p : List Char) (env : ProcEnv) :
    (DefaultExtractingImagesOption p).FrameRate = ("1").toList
    ∧ (DefaultExtractingImagesOption p).OutputWidth = none
    ∧ (DefaultExtractingImagesOption p).OutputHeight = none
    ∧ (ExtractingImagesContext bin (some (DefaultExtractingImagesOption p)) env).2
        = [SpawnRecord.mk bin
            [("-i").toList, p, ("-r").toList, ("1").toList,
             ("-f").toList, ("image2").toList,
             resolveOutputFrameFileFormat p]] := by
  refine ⟨rfl, rfl, rfl, ?_⟩
  rcases env with ⟨s, r, out, um⟩
  rcases s with _ | _ | j <;>
    rcases r with (_ | n) | (_ | m) <;>
    simp [ExtractingImagesContext, DefaultExtractingImagesOption]

/-- Claim C10: the default conversion option has the overwrite flag set,
so an MP4 conversion run with it always appends the `-y` force-overwrite
flag to its argument list. -/
theorem default_mp4_option_overwrite (bin p : List Char) (env : ProcEnv) :
    (DefaultMP4ConvertOption p).Overwrite = true
    ∧ (ConvertToMP4Context bin (some (DefaultMP4ConvertOption p)) env).2
        = [SpawnRecord.mk bin
            [("-i").toList, p, resolveOutputMP4FileFormat p, ("-y").toList]] := by
  refine ⟨rfl, ?_⟩
  rcases env with ⟨s, r, out, um⟩
  rcases s with _ | _ | j <;>
    rcases r with (_ | n) | (_ | m) <;>
    simp [ConvertToMP4Context, DefaultMP4ConvertOption]

/-! ### Concrete sample values for witnesses -/

/-- A concrete empty ProbeData value (what `&ProbeData{}` allocates). -/
def emptyProbeData : ProbeData :=
  { format :=
      { filename := [], formatName := [], nbStreams := 0, startTime := []
        duration := [], size := [], bitRate := [], probeScore := 0, tags := [] }
    streams := [] }

/-- A concrete extraction option: the default option for `intro.mp4`. -/
def sampleExtractOption : ExtractingImagesOption :=
  DefaultExtractingImagesOption (("intro.mp4").toList)

/-- A concrete conversion option with overwrite disabled. -/
def sampleConvertOption : MP4ConvertOption :=
  { Overwrite := false, filePath := ("clip.mov").toList }

/-- A run in which the context fired first and the kill succeeded. -/
def envCtxDoneKillOk : ProcEnv :=
  { start := StartOutcome.ok, race := RaceOutcome.ctxDone none
    stdout := [], unmarshal := (emptyProbeData, none) }

/-- A run in which `cmd.Start` returned the not-found sentinel. -/
def envStartNotFound : ProcEnv :=
  { start := StartOutcome.notFound, race := RaceOutcome.completed none
    stdout := [], unmarshal := (emptyProbeData, none) }

/-- A clean run whose captured output fails to unmarshal (error code 7). -/
def envDecodeFail : ProcEnv :=
  { start := StartOutcome.ok, race := RaceOutcome.completed none
    stdout := [], unmarshal := (emptyProbeData, some 7) }

/-- A clean `cmd.Run` with empty stderr whose output fails to unmarshal. -/
def renvDecodeFail : RunEnv :=
  { runErr := none, stdout := [], stdErr := []
    unmarshal := (emptyProbeData, some 7) }

/-- A clean `cmd.Run` that wrote `"err"` to standard error. -/
def renvStderrNonEmpty : RunEnv :=
  { runErr := none, stdout := [], stdErr := ("err").toList
    unmarshal := (emptyProbeData, none) }

/-! ### Witnesses -/

/-- Witness for C1: with a concrete run whose cancellation won the race
and whose kill succeeded, all three operations return Timeout. -/
theorem timeout_kill_classification_witness :
    (ExtractingImagesContext (("ffmpeg").toList) (some sampleExtractOption) envCtxDoneKillOk).1
        = some GoErr.timeout
    ∧ (ConvertToMP4Context (("ffmpeg").toList) (some sampleConvertOption) envCtxDoneKillOk).1
        = some GoErr.timeout
    ∧ (GetProbeDataContext (("ffprobe").toList) envCtxDoneKillOk (("a.mp4").toList)).1.2
        = some GoErr.timeout :=
  (timeout_kill_classification (("ffmpeg").toList) (("a.mp4").toList) sampleExtractOption
    sampleConvertOption envCtxDoneKillOk none rfl rfl).1.1 rfl

/-- Witness for C2: with a concrete run whose start returned the
not-found sentinel, extraction fails with `ErrFFMPEGNotFound`. -/
theorem start_failure_classification_witness :
    (ExtractingImagesContext (("ffmpeg").toList) (some sampleExtractOption) envStartNotFound).1
        = some GoErr.ffmpegNotFound
    ∧ (ConvertToMP4Context (("ffmpeg").toList) (some sampleConvertOption) envStartNotFound).1
        = some GoErr.ffmpegNotFound
    ∧ (GetProbeDataContext (("ffprobe").toList) envStartNotFound (("a.mp4").toList)).1
        = (none, some GoErr.ffprobeNotFound) :=
  (start_failure_classification (("ffmpeg").toList) (("a.mp4").toList) sampleExtractOption
    sampleConvertOption envStartNotFound).1 rfl

/-- Witness for C5: the sample option has no output height, so its
extraction argument list carries no resize segment. -/
theorem extraction_args_exact_witness :
    (ExtractingImagesContext (("ffmpeg").toList) (some sampleExtractOption) envCtxDoneKillOk).2
      = [SpawnRecord.mk (("ffmpeg").toList)
          [("-i").toList, sampleExtractOption.FilePath,
           ("-r").toList, sampleExtractOption.FrameRate,
           ("-f").toList, ("image2").toList,
           resolveOutputFrameFileFormat sampleExtractOption.FilePath]] :=
  (extraction_args_exact (("ffmpeg").toList) sampleExtractOption envCtxDoneKillOk).2 rfl

/-- Witness for C7: concrete clean runs with unmarshal error code 7
return the empty ProbeData alongside the decode error. -/
theorem probe_decode_failure_returns_data_witness :
    (GetProbeDataContext (("ffprobe").toList) envDecodeFail (("a.mp4").toList)).1
        = (some emptyProbeData, some (GoErr.json 7))
    ∧ (GetProbeDataOptions (("ffprobe").toList) renvDecodeFail (("a.mp4").toList) []).1
        = (some emptyProbeData, some (GoErr.unmarshalWrap (GoErr.json 7))) :=
  probe_decode_failure_returns_data (("ffprobe").toList) (("a.mp4").toList) envDecodeFail
    renvDecodeFail [] emptyProbeData emptyProbeData 7 7 rfl rfl rfl rfl rfl rfl

/-- Witness for C8: a concrete zero-status run that wrote `"err"` to
standard error fails with the stderr error and returns no data. -/
theorem probe_options_stderr_failure_witness :
    (GetProbeDataOptions (("ffprobe").toList) renvStderrNonEmpty (("a.mp4").toList) []).1
      = (none, some (GoErr.stderrMsg (("err").toList))) :=
  probe_options_stderr_failure (("ffprobe").toList) (("a.mp4").toList) []
    renvStderrNonEmpty rfl (by decide)

end FFMpeg
